import Mathlib

/-!
# Nullable struct container (`package null`, `struct.go`)

A shallow embedding of the generic container `Struct[T]` and of its
operations.  Methods with a pointer receiver that write to the receiver are
functions from the container before the call to the container after the call
together with the returned error.

`encoding/json`, `reflect` and `fmt` are libraries outside the repository.
What the code calls in them is gathered in the record `Codec T`, over which
the general theorems quantify; `Dummy`, `customString` and `int64` below give
concrete codecs built on a small JSON reader.
-/

set_option linter.dupNamespace false
set_option exponentiation.threshold 2000

namespace Null

/-! ## Go values the code handles -/

/-- Byte slices (`[]byte`), carried as text.  Every literal the code itself
writes is ASCII, one byte per character. -/
abbrev Bytes := String

/-- Go `error` values that can reach the code: the two decoding errors of
`encoding/json`, its encoding errors, and the errors `fmt.Errorf` builds,
which are determined by their formatted message. -/
inductive Error where
  /-- `*json.SyntaxError`: the input is not well-formed JSON. -/
  | syntaxError
  /-- `*json.UnmarshalTypeError` with its `Value` and `Type` fields. -/
  | unmarshalTypeError (value : String) (type : String)
  /-- an error of `json.Marshal` (unsupported type or value). -/
  | marshalError (msg : String)
  /-- the result of `fmt.Errorf` with the given formatted message. -/
  | errorf (msg : String)
  deriving DecidableEq, Repr

deriving instance DecidableEq for Except

/-- The dynamic value `json.Unmarshal` stores into an empty `interface{}`:
`nil`, `bool`, `float64`, `string`, `[]interface{}` or
`map[string]interface{}`.  A number is carried as its literal; the code looks
only at the dynamic type. -/
inductive Dyn where
  | nil
  | bool (b : Bool)
  | float64 (lit : String)
  | string (s : String)
  | slice (xs : List Dyn)
  | map (kvs : List (String × Dyn))
  deriving Repr

/-- `reflect.TypeOf(v).Name()` for a non-nil dynamic value: the name of a
defined type, and the empty string for the unnamed slice and map types. -/
def Dyn.typeName : Dyn → String
  | .nil => ""
  | .bool _ => "bool"
  | .float64 _ => "float64"
  | .string _ => "string"
  | .slice _ => ""
  | .map _ => ""

/-- The outer shape of a fragment, as the type switch of `UnmarshalJSON`
distinguishes it. -/
inductive Shape where
  | null
  | object
  | other
  deriving DecidableEq, Repr

/-- The shape of a dynamic value. -/
def Dyn.shape : Dyn → Shape
  | .nil => .null
  | .map _ => .object
  | _ => .other

/-- `Struct[T]`: a value of `T` and the flag that says it is present. -/
structure Struct (T : Type) where
  Struct : T
  Valid : Bool
  deriving DecidableEq, Repr

/-- The library functions the code calls, at the type `T`.

* `Marshal v` is `json.Marshal(v)`;
* `Unmarshal data t` is `json.Unmarshal(data, &t)` on a target holding `t`:
  the target afterwards and the returned error (the target can change even
  when an error is returned);
* `UnmarshalAny data` is `json.Unmarshal(data, &v)` on `var v interface{}`;
* `zero` is the zero value of `T` (`var noop T`);
* `typeName` is `reflect.TypeOf(*new(T)).Name()`.

`T` ranges over the types that are not interface types.  For an interface type
(`Struct[any]`) `reflect.TypeOf(*new(T))` is nil and the call of `Name()` in the
default branch of `UnmarshalJSON` panics; that case is outside this record. -/
structure Codec (T : Type) where
  Marshal : T → Except Error Bytes
  Unmarshal : Bytes → T → T × Option Error
  UnmarshalAny : Bytes → Except Error Dyn
  zero : T
  typeName : String

/-- A value handed to `Scan` (`interface{}`): `nil`, a `[]byte`, or a value of
another dynamic type, of which `Scan` uses only the `%T` and `%v`
renderings. -/
inductive ScanValue where
  | null
  | bytes (x : Bytes)
  | int64 (n : Int)
  | float64 (printed : String)
  | bool (b : Bool)
  | string (s : String)
  | time (printed : String)
  deriving DecidableEq, Repr

/-- The `%T` rendering of a scanned value. -/
def ScanValue.fmtT : ScanValue → String
  | .null => "<nil>"
  | .bytes _ => "[]uint8"
  | .int64 _ => "int64"
  | .float64 _ => "float64"
  | .bool _ => "bool"
  | .string _ => "string"
  | .time _ => "time.Time"

/-- Decimal digits of a natural number, most significant first. -/
def natDigits : Nat → Nat → List Char
  | 0, _ => []
  | fuel + 1, n =>
    if n < 10 then [Char.ofNat (48 + n)]
    else natDigits fuel (n / 10) ++ [Char.ofNat (48 + n % 10)]

/-- Decimal rendering of an integer (`strconv.FormatInt(n, 10)`). -/
def formatInt (n : Int) : String :=
  if n < 0 then String.mk ('-' :: natDigits (n.natAbs + 1) n.natAbs)
  else String.mk (natDigits (n.natAbs + 1) n.natAbs)

/-- The `%v` rendering of a scanned value. -/
def ScanValue.fmtV : ScanValue → String
  | .null => "<nil>"
  | .bytes x => "[" ++ " ".intercalate (x.toList.map fun c => formatInt c.toNat) ++ "]"
  | .int64 n => formatInt n
  | .float64 p => p
  | .bool b => if b then "true" else "false"
  | .string s => s
  | .time p => p

/-- A value the driver accepts from `Value` (`driver.Value`): `nil` or the
encoded bytes. -/
inductive DriverValue where
  | null
  | bytes (x : Bytes)
  deriving DecidableEq, Repr

/-! ## The operations of `struct.go` -/

section Operations

variable {T : Type}

/-- `NewStruct(object, valid)`. -/
def NewStruct (object : T) (valid : Bool) : Struct T :=
  { Struct := object, Valid := valid }

/-- `StructFrom(object)`. -/
def StructFrom (object : T) : Struct T :=
  NewStruct object true

/-- `StructFromPtr(object)`; a pointer that may be nil is an `Option`. -/
def StructFromPtr (c : Codec T) (object : Option T) : Struct T :=
  match object with
  | none =>
    let noop := c.zero
    NewStruct noop false
  | some v => NewStruct v true

/-- `s.ValueOrZero()`. -/
def ValueOrZero (c : Codec T) (s : Struct T) : T :=
  if !s.Valid then
    let noop := c.zero
    noop
  else s.Struct

/-- The message of the `fmt.Errorf` call in `UnmarshalJSON`.  Both arguments
are strings (results of `Name()`): `%v` prints the first, and `%T` prints the
type of the second, which is `string`. -/
def unmarshalErrorf (vName : String) (_tName : String) : Error :=
  .errorf ("json: cannot unmarshal " ++ vName ++ " into Go value of type " ++ "string")

/-- `s.UnmarshalJSON(data)`: the container afterwards and the returned
error. -/
def UnmarshalJSON (c : Codec T) (s : Struct T) (data : Bytes) : Struct T × Option Error :=
  match c.UnmarshalAny data with
  | .error err => (s, some err)
  | .ok v =>
    match v with
    | .map _ =>
      let r := c.Unmarshal data s.Struct
      let err := r.2
      ({ Struct := r.1, Valid := err.isNone }, err)
    | .nil => ({ s with Valid := false }, none)
    | _ =>
      let err : Option Error := some (unmarshalErrorf v.typeName c.typeName)
      ({ s with Valid := err.isNone }, err)

/-- `s.MarshalJSON()`. -/
def MarshalJSON (c : Codec T) (s : Struct T) : Except Error Bytes :=
  if !s.Valid then .ok "null"
  else c.Marshal s.Struct

/-- `s.SetValid(object)`: the container afterwards. -/
def SetValid (_s : Struct T) (object : T) : Struct T :=
  { Struct := object, Valid := true }

/-- `s.IsZero()`. -/
def IsZero (s : Struct T) : Bool :=
  !s.Valid

/-- `s.Value()`. -/
def Value (c : Codec T) (s : Struct T) : Except Error DriverValue :=
  if !s.Valid then .ok .null
  else (c.Marshal s.Struct).map DriverValue.bytes

/-- The message of the `fmt.Errorf` call in `Scan`. -/
def scanErrorf (value : ScanValue) : Error :=
  .errorf ("null: cannot scan type " ++ value.fmtT ++ " into null.Struct: " ++ value.fmtV)

/-- `s.Scan(value)`: the container afterwards and the returned error. -/
def Scan (c : Codec T) (s : Struct T) (value : ScanValue) : Struct T × Option Error :=
  match value with
  | .null => ({ s with Valid := false }, none)
  | .bytes x =>
    let r := c.Unmarshal x s.Struct
    let err := r.2
    ({ Struct := r.1, Valid := err.isNone }, err)
  | _ =>
    let err : Option Error := some (scanErrorf value)
    ({ s with Valid := err.isNone }, err)

/-- The non-nil pointer `Ptr` can return: the address `&s.Struct` of the inner
field of the receiver.  A pointer is carried as the path it designates in the
receiver; reading and writing through it are `load` and `store` on the
receiver. -/
inductive Ref where
  | innerField
  deriving DecidableEq, Repr

/-- Reading through the pointer (`*p`), the receiver being `s`. -/
def Ref.load (p : Ref) (s : Struct T) : T :=
  match p with
  | .innerField => s.Struct

/-- Writing through the pointer (`*p = v`): the receiver afterwards. -/
def Ref.store (p : Ref) (s : Struct T) (v : T) : Struct T :=
  match p with
  | .innerField => { s with Struct := v }

/-- `s.Ptr()`; the nil pointer is `none`. -/
def Ptr (s : Struct T) : Option Ref :=
  if !s.Valid then none
  else some .innerField

/-- The zero value of `Struct[T]` (`Struct[T]{}`, `var s Struct[T]`): every
field at the zero value of its type. -/
def zeroStruct (c : Codec T) : Struct T :=
  { Struct := c.zero, Valid := false }

end Operations

/-! ## A JSON reader, for the concrete codecs

The reader follows the grammar `encoding/json` accepts (RFC 8259).  It is
used only to build concrete instances of `Codec`; the general theorems do not
depend on it.  Not modelled: the nesting limit of the decoder and input that
is not valid UTF-8. -/

/-- JSON whitespace. -/
def isSpace (c : Char) : Bool :=
  c == ' ' || c == '\t' || c == '\r' || c == '\n'

/-- Drop leading whitespace. -/
def skipSpace : List Char → List Char
  | [] => []
  | c :: cs => if isSpace c then skipSpace cs else c :: cs

/-- Split off the leading decimal digits. -/
def spanDigits : List Char → List Char × List Char
  | [] => ([], [])
  | c :: cs =>
    if c.isDigit then
      let r := spanDigits cs
      (c :: r.1, r.2)
    else ([], c :: cs)

/-- The exponent part of a number literal, after the text `acc`. -/
def readExp (acc : List Char) (cs : List Char) : Option (List Char × List Char) :=
  let exp (e : Char) (r : List Char) : Option (List Char × List Char) :=
    let sg : List Char × List Char :=
      match r with
      | '+' :: r1 => (['+'], r1)
      | '-' :: r1 => (['-'], r1)
      | _ => ([], r)
    let ds := spanDigits sg.2
    if ds.1.isEmpty then none else some (acc ++ e :: sg.1 ++ ds.1, ds.2)
  match cs with
  | 'e' :: r => exp 'e' r
  | 'E' :: r => exp 'E' r
  | _ => some (acc, cs)

/-- The fraction part of a number literal, after the text `acc`. -/
def readFrac (acc : List Char) (cs : List Char) : Option (List Char × List Char) :=
  match cs with
  | '.' :: r =>
    let ds := spanDigits r
    if ds.1.isEmpty then none else readExp (acc ++ '.' :: ds.1) ds.2
  | _ => readExp acc cs

/-- A number literal at the head of the input: its text and the rest. -/
def readNumber (cs : List Char) : Option (List Char × List Char) :=
  let sg : List Char × List Char :=
    match cs with
    | '-' :: r => (['-'], r)
    | _ => ([], cs)
  match sg.2 with
  | '0' :: r => readFrac (sg.1 ++ ['0']) r
  | c :: r =>
    if c.isDigit then
      let ds := spanDigits (c :: r)
      readFrac (sg.1 ++ ds.1) ds.2
    else none
  | [] => none

/-- Value of a hexadecimal digit. -/
def hexVal (c : Char) : Option Nat :=
  if c.isDigit then some (c.toNat - 48)
  else if 'a' ≤ c ∧ c ≤ 'f' then some (c.toNat - 87)
  else if 'A' ≤ c ∧ c ≤ 'F' then some (c.toNat - 55)
  else none

/-- Four hexadecimal digits at the head of the input. -/
def readHex4 (cs : List Char) : Option (Nat × List Char) :=
  match cs with
  | a :: b :: c :: d :: r =>
    match hexVal a, hexVal b, hexVal c, hexVal d with
    | some x, some y, some z, some w => some (((x * 16 + y) * 16 + z) * 16 + w, r)
    | _, _, _, _ => none
  | _ => none

/-- The character a one-letter escape stands for. -/
def unescape (e : Char) : Option Char :=
  if e = '"' then some '"'
  else if e = '\\' then some '\\'
  else if e = '/' then some '/'
  else if e = 'b' then some (Char.ofNat 8)
  else if e = 'f' then some (Char.ofNat 12)
  else if e = 'n' then some '\n'
  else if e = 'r' then some '\r'
  else if e = 't' then some '\t'
  else none

/-- The body of a string literal, after its opening quote; `acc` holds the
characters read so far, last first.  A `\u` escape of a surrogate half that
has no partner stands for U+FFFD. -/
def readString : Nat → List Char → List Char → Option (String × List Char)
  | 0, _, _ => none
  | _ + 1, [], _ => none
  | fuel + 1, c :: r, acc =>
    if c = '"' then some (String.mk acc.reverse, r)
    else if c = '\\' then
      match r with
      | 'u' :: r1 =>
        match readHex4 r1 with
        | none => none
        | some (n, r2) =>
          if 0xD800 ≤ n ∧ n < 0xDC00 then
            match r2 with
            | '\\' :: 'u' :: r3 =>
              match readHex4 r3 with
              | some (m, r4) =>
                if 0xDC00 ≤ m ∧ m < 0xE000 then
                  readString fuel r4 (Char.ofNat (0x10000 + (n - 0xD800) * 0x400 + (m - 0xDC00)) :: acc)
                else readString fuel r2 (Char.ofNat 0xFFFD :: acc)
              | none => readString fuel r2 (Char.ofNat 0xFFFD :: acc)
            | _ => readString fuel r2 (Char.ofNat 0xFFFD :: acc)
          else if 0xDC00 ≤ n ∧ n < 0xE000 then readString fuel r2 (Char.ofNat 0xFFFD :: acc)
          else readString fuel r2 (Char.ofNat n :: acc)
      | e :: r1 =>
        match unescape e with
        | some ch => readString fuel r1 (ch :: acc)
        | none => none
      | [] => none
    else if c.toNat < 0x20 then none
    else readString fuel r (c :: acc)

mutual

/-- One JSON value at the head of the input, after optional whitespace: the
value and the rest of the input. -/
def readValue : Nat → List Char → Option (Dyn × List Char)
  | 0, _ => none
  | fuel + 1, cs =>
    match skipSpace cs with
    | 'n' :: 'u' :: 'l' :: 'l' :: r => some (.nil, r)
    | 't' :: 'r' :: 'u' :: 'e' :: r => some (.bool true, r)
    | 'f' :: 'a' :: 'l' :: 's' :: 'e' :: r => some (.bool false, r)
    | '"' :: r =>
      match readString (r.length + 1) r [] with
      | some (s, r1) => some (.string s, r1)
      | none => none
    | '[' :: r =>
      match skipSpace r with
      | ']' :: r1 => some (.slice [], r1)
      | _ =>
        match readElems fuel r with
        | some (xs, r1) => some (.slice xs, r1)
        | none => none
    | '{' :: r =>
      match skipSpace r with
      | '}' :: r1 => some (.map [], r1)
      | _ =>
        match readMembers fuel r with
        | some (kvs, r1) => some (.map kvs, r1)
        | none => none
    | c :: r =>
      if c = '-' ∨ c.isDigit then
        match readNumber (c :: r) with
        | some (lit, r1) => some (.float64 (String.mk lit), r1)
        | none => none
      else none
    | [] => none

/-- The elements of a non-empty array, up to and including the closing
bracket. -/
def readElems : Nat → List Char → Option (List Dyn × List Char)
  | 0, _ => none
  | fuel + 1, cs =>
    match readValue fuel cs with
    | none => none
    | some (v, r) =>
      match skipSpace r with
      | ',' :: r1 =>
        match readElems fuel r1 with
        | some (vs, r2) => some (v :: vs, r2)
        | none => none
      | ']' :: r1 => some ([v], r1)
      | _ => none

/-- The members of a non-empty object, up to and including the closing
brace. -/
def readMembers : Nat → List Char → Option (List (String × Dyn) × List Char)
  | 0, _ => none
  | fuel + 1, cs =>
    match skipSpace cs with
    | '"' :: r =>
      match readString (r.length + 1) r [] with
      | none => none
      | some (k, r1) =>
        match skipSpace r1 with
        | ':' :: r2 =>
          match readValue fuel r2 with
          | none => none
          | some (v, r3) =>
            match skipSpace r3 with
            | ',' :: r4 =>
              match readMembers fuel r4 with
              | some (kvs, r5) => some ((k, v) :: kvs, r5)
              | none => none
            | '}' :: r4 => some ([(k, v)], r4)
            | _ => none
        | _ => none
    | _ => none

end

/-- A whole document: one value, with nothing but whitespace around it. -/
def parse (data : Bytes) : Option Dyn :=
  let cs := data.toList
  match readValue (2 * cs.length + 2) cs with
  | some (v, r) => if (skipSpace r).isEmpty then some v else none
  | none => none

/-- Value of a run of decimal digits; `none` if a character is not a digit. -/
def digitsVal : List Char → Nat → Option Nat
  | [], acc => some acc
  | c :: cs, acc => if c.isDigit then digitsVal cs (acc * 10 + (c.toNat - 48)) else none

/-- Whether `strconv.ParseFloat(lit, 64)` reports a range error on a JSON
number literal, that is, whether the number rounds to an infinity: its absolute
value `m * 10 ^ e` is at least `2 ^ 1024 - 2 ^ 970`, the midpoint between the
largest `float64` and `2 ^ 1024`.  Here `m` is the value of the digits of the
literal without the point and `e` is the exponent less the number of fraction
digits.  The first tests settle the cases far from the limit without the large
powers: `m * 10 ^ e` is below `10 ^ 308` when the digit count plus `e` is at
most 308, and is at least `10 ^ 401` when `m` is positive and `e` exceeds
400. -/
def float64OutOfRange (lit : String) : Bool :=
  let cs : List Char :=
    match lit.toList with
    | '-' :: r => r
    | r => r
  let ip := spanDigits cs
  let fp : List Char × List Char :=
    match ip.2 with
    | '.' :: r => spanDigits r
    | r => ([], r)
  let ex : Int :=
    match fp.2 with
    | _ :: '-' :: r => - (((digitsVal r 0).getD 0 : Nat) : Int)
    | _ :: '+' :: r => (((digitsVal r 0).getD 0 : Nat) : Int)
    | _ :: r => (((digitsVal r 0).getD 0 : Nat) : Int)
    | [] => 0
  let ds := ip.1 ++ fp.1
  let m : Nat := (digitsVal ds 0).getD 0
  let e : Int := ex - (fp.1.length : Int)
  if m = 0 then false
  else if (ds.length : Int) + e ≤ 308 then false
  else if 400 < e then true
  else if 0 ≤ e then decide (2 ^ 1024 - 2 ^ 970 ≤ m * 10 ^ e.toNat)
  else decide ((2 ^ 1024 - 2 ^ 970) * 10 ^ (-e).toNat ≤ m)

mutual

/-- The error `json.Unmarshal` keeps while it fills an empty interface: that of
the first number literal, in document order, that is out of the range of
`float64`. -/
def Dyn.rangeError : Dyn → Option Error
  | .float64 lit =>
    if float64OutOfRange lit then some (.unmarshalTypeError ("number " ++ lit) "float64")
    else none
  | .slice xs => rangeErrorElems xs
  | .map kvs => rangeErrorMembers kvs
  | _ => none

/-- The first range error among the elements of an array. -/
def rangeErrorElems : List Dyn → Option Error
  | [] => none
  | x :: xs =>
    match x.rangeError with
    | some e => some e
    | none => rangeErrorElems xs

/-- The first range error among the members of an object. -/
def rangeErrorMembers : List (String × Dyn) → Option Error
  | [] => none
  | (_, x) :: kvs =>
    match x.rangeError with
    | some e => some e
    | none => rangeErrorMembers kvs

end

/-- `json.Unmarshal(data, &v)` on `var v interface{}`: a syntax error on input
that is not well-formed; otherwise every number is converted to a `float64`,
and the error of the first one that is out of range is returned. -/
def jsonUnmarshalAny (data : Bytes) : Except Error Dyn :=
  match parse data with
  | none => .error .syntaxError
  | some v =>
    match v.rangeError with
    | some e => .error e
    | none => .ok v

/-! ## Concrete codecs

The types of `struct_test.go` (`Dummy`, `customString`, `string`) and `int64`,
with the behaviour of `encoding/json` on them. -/

/-- `strconv.ParseInt(lit, 10, 64)` on a JSON number literal: the integer it
denotes, or `none` when the literal has a fraction or an exponent or is out of
the range of `int64`. -/
def parseInt64 (lit : String) : Option Int :=
  let r : Option Int :=
    match lit.toList with
    | '-' :: d :: ds => (digitsVal (d :: ds) 0).map fun n => - (n : Int)
    | d :: ds => (digitsVal (d :: ds) 0).map fun n => (n : Int)
    | [] => none
  match r with
  | some n => if - (2 ^ 63 : Int) ≤ n ∧ n < 2 ^ 63 then some n else none
  | none => none

/-- The `Value` field of the `UnmarshalTypeError` for a fragment of the wrong
kind. -/
def Dyn.jsonKind : Dyn → String
  | .nil => "null"
  | .bool _ => "bool"
  | .float64 _ => "number"
  | .string _ => "string"
  | .slice _ => "array"
  | .map _ => "object"

/-- Decoding one fragment into an `int64` holding `cur`: `null` leaves it
alone, an integer literal in range sets it, anything else is a type error. -/
def decodeInt64 (v : Dyn) (cur : Int) : Int × Option Error :=
  match v with
  | .nil => (cur, none)
  | .float64 lit =>
    match parseInt64 lit with
    | some n => (n, none)
    | none => (cur, some (.unmarshalTypeError ("number " ++ lit) "int64"))
  | _ => (cur, some (.unmarshalTypeError v.jsonKind "int64"))

/-- `json.Unmarshal(data, &t)` for `t` of type `int64`. -/
def unmarshalInt64 (data : Bytes) (t : Int) : Int × Option Error :=
  match parse data with
  | none => (t, some .syntaxError)
  | some v => decodeInt64 v t

/-- `json.Marshal` and `json.Unmarshal` at `int64`. -/
def int64Codec : Codec Int where
  Marshal := fun n => .ok (formatInt n)
  Unmarshal := unmarshalInt64
  UnmarshalAny := jsonUnmarshalAny
  zero := 0
  typeName := "int64"

/-- `type Dummy struct { Value int64 }` with the JSON key `value`. -/
structure Dummy where
  Value : Int
  deriving DecidableEq, Repr

/-- ASCII lower case of a key; `encoding/json` matches keys to fields without
regard to case. -/
def foldKey (k : String) : String :=
  String.mk (k.toList.map Char.toLower)

/-- Decoding the members of an object into a `Dummy`, in order; the first
error is kept and decoding goes on. -/
def decodeDummyMembers : List (String × Dyn) → Dummy → Option Error → Dummy × Option Error
  | [], t, e => (t, e)
  | (k, v) :: rest, t, e =>
    if foldKey k = "value" then
      let r := decodeInt64 v t.Value
      decodeDummyMembers rest { Value := r.1 } (if e.isSome then e else r.2)
    else decodeDummyMembers rest t e

/-- `json.Unmarshal(data, &t)` for `t` of type `Dummy`. -/
def unmarshalDummy (data : Bytes) (t : Dummy) : Dummy × Option Error :=
  match parse data with
  | none => (t, some .syntaxError)
  | some .nil => (t, none)
  | some (.map kvs) => decodeDummyMembers kvs t none
  | some v => (t, some (.unmarshalTypeError v.jsonKind "null.Dummy"))

/-- `json.Marshal` and `json.Unmarshal` at `Dummy`. -/
def dummyCodec : Codec Dummy where
  Marshal := fun d => .ok ("\x7b\"value\":" ++ formatInt d.Value ++ "\x7d")
  Unmarshal := unmarshalDummy
  UnmarshalAny := jsonUnmarshalAny
  zero := { Value := 0 }
  typeName := "Dummy"

/-- A hexadecimal digit, lower case. -/
def hexDigit (n : Nat) : Char :=
  if n < 10 then Char.ofNat (48 + n) else Char.ofNat (87 + n)

/-- The text `json.Marshal` writes for one character of a string. -/
def escapeChar (c : Char) : List Char :=
  if c = '"' then ['\\', '"']
  else if c = '\\' then ['\\', '\\']
  else if c = '\n' then ['\\', 'n']
  else if c = '\r' then ['\\', 'r']
  else if c = '\t' then ['\\', 't']
  else if c.toNat = 8 then ['\\', 'b']
  else if c.toNat = 12 then ['\\', 'f']
  else if c.toNat < 0x20 ∨ c = '<' ∨ c = '>' ∨ c = '&' then
    ['\\', 'u', '0', '0', hexDigit (c.toNat / 16), hexDigit (c.toNat % 16)]
  else if c.toNat = 0x2028 then ['\\', 'u', '2', '0', '2', '8']
  else if c.toNat = 0x2029 then ['\\', 'u', '2', '0', '2', '9']
  else [c]

/-- `json.Marshal` of a string: quoted, with escapes. -/
def marshalString (s : String) : Bytes :=
  String.mk ('"' :: (s.toList.map escapeChar).flatten ++ ['"'])

/-- `json.Unmarshal(data, &t)` for `t` of a string type named `tname`. -/
def unmarshalString (tname : String) (data : Bytes) (t : String) : String × Option Error :=
  match parse data with
  | none => (t, some .syntaxError)
  | some .nil => (t, none)
  | some (.string x) => (x, none)
  | some v => (t, some (.unmarshalTypeError v.jsonKind tname))

/-- `json.Marshal` and `json.Unmarshal` at `string`. -/
def stringCodec : Codec String where
  Marshal := fun x => .ok (marshalString x)
  Unmarshal := unmarshalString "string"
  UnmarshalAny := jsonUnmarshalAny
  zero := ""
  typeName := "string"

/-- `type customString string` of `TestUnmarshalJSON`. -/
abbrev customString := String

/-- `json.Marshal` and `json.Unmarshal` at `customString`. -/
def customStringCodec : Codec customString where
  Marshal := fun x => .ok (marshalString x)
  Unmarshal := unmarshalString "null.customString"
  UnmarshalAny := jsonUnmarshalAny
  zero := ""
  typeName := "customString"

/-! ## The reader on the inputs of `struct_test.go` -/

/-- The shapes the reader reports for the fragments the tests use. -/
theorem parse_shapes :
    (parse "null").map Dyn.shape = some .null
    ∧ (parse "\x7b\"value\": 10\x7d").map Dyn.shape = some .object
    ∧ (parse "\x7b\x7d").map Dyn.shape = some .object
    ∧ (parse "\"hello\"").map Dyn.shape = some .other
    ∧ (parse "[1, 2.5e3, \"a\\n\", \x7b\"k\": [true, null]\x7d]").map Dyn.shape = some .other
    ∧ (parse "invalid").map Dyn.shape = none
    ∧ (parse "01").map Dyn.shape = none
    ∧ (parse "\x7b\"a\":1,\x7d").map Dyn.shape = none := by
  decide

/-- What `json.Unmarshal` does to a `Dummy` on the fragments the tests use. -/
theorem unmarshalDummy_cases :
    unmarshalDummy "\x7b\"value\": 10\x7d" ⟨0⟩ = (⟨10⟩, none)
    ∧ unmarshalDummy "\x7b\x7d" ⟨7⟩ = (⟨7⟩, none)
    ∧ unmarshalDummy "null" ⟨7⟩ = (⟨7⟩, none)
    ∧ unmarshalDummy "\x7b\"VALUE\": -3, \"x\": [1]\x7d" ⟨7⟩ = (⟨-3⟩, none)
    ∧ unmarshalDummy "\x7b\"value\": \"string\"\x7d" ⟨7⟩
        = (⟨7⟩, some (.unmarshalTypeError "string" "int64"))
    ∧ unmarshalDummy "\x7b\"value\": 1.5\x7d" ⟨7⟩
        = (⟨7⟩, some (.unmarshalTypeError "number 1.5" "int64"))
    ∧ unmarshalDummy "10" ⟨7⟩ = (⟨7⟩, some (.unmarshalTypeError "number" "null.Dummy"))
    ∧ unmarshalDummy "invalid" ⟨7⟩ = (⟨7⟩, some .syntaxError) := by
  decide

/-! ## Encoding -/

section Theorems

variable {T : Type}

/-- C1: for every `T`, `MarshalJSON` on a container that is not valid returns
exactly the four bytes `null` and no error, whatever the inner value is, and on
a valid container it returns exactly the result of `json.Marshal` on the inner
value alone, bytes or error.  The three cases of `TestMarshalStruct` are
included. -/
theorem MarshalJSON_null_or_inner (c : Codec T) (x : T) :
    MarshalJSON c { Struct := x, Valid := false } = .ok "null"
    ∧ ("null" : Bytes).utf8ByteSize = 4
    ∧ MarshalJSON c { Struct := x, Valid := true } = c.Marshal x
    ∧ MarshalJSON dummyCodec (StructFrom ⟨10⟩) = .ok "\x7b\"value\":10\x7d"
    ∧ MarshalJSON dummyCodec (NewStruct ⟨10⟩ false) = .ok "null"
    ∧ MarshalJSON stringCodec (NewStruct "test" true) = .ok "\"test\"" := by
  refine ⟨rfl, by decide, rfl, by decide, by decide, by decide⟩

/-! ## Round trip of a valid container -/

/-- C2: the code at the example of the claim, `T = string`, `v = "test"`.
`MarshalJSON` of `StructFrom("test")` gives the bytes `"test"`
(`TestMarshalStruct`), and `json.Unmarshal` of these bytes into a string gives
`test` back with no error; but `UnmarshalJSON` on a fresh container takes the
default branch of its type switch, returns an error and leaves the container
not valid with an empty inner value, so the round trip does not give
`StructFrom("test")` back. -/
theorem roundtrip_string_fails :
    MarshalJSON stringCodec (StructFrom "test") = .ok "\"test\""
    ∧ stringCodec.Unmarshal "\"test\"" stringCodec.zero = ("test", none)
    ∧ UnmarshalJSON stringCodec (zeroStruct stringCodec) "\"test\""
        = ({ Struct := "", Valid := false },
           some (.errorf "json: cannot unmarshal string into Go value of type string"))
    ∧ UnmarshalJSON stringCodec (zeroStruct stringCodec) "\"test\""
        ≠ (StructFrom "test", none) := by
  decide

/-- The round trip where it holds: if `MarshalJSON(StructFrom(v))` gives
`bytes`, `json.Unmarshal` of `bytes` into an empty interface succeeds and
stores a map, and `json.Unmarshal` of `bytes` into a zero `T` gives `v` with no
error, then `UnmarshalJSON(bytes)` on a fresh container returns no error and
leaves the container equal to `StructFrom(v)`. -/
theorem roundtrip_valid_object (c : Codec T) (v : T) (bytes : Bytes)
    (kvs : List (String × Dyn))
    (henc : MarshalJSON c (StructFrom v) = .ok bytes)
    (hshape : c.UnmarshalAny bytes = .ok (.map kvs))
    (hdec : c.Unmarshal bytes c.zero = (v, none)) :
    MarshalJSON c (StructFrom v) = .ok bytes
    ∧ UnmarshalJSON c { Struct := c.zero, Valid := false } bytes
        = ({ Struct := v, Valid := true }, none)
    ∧ UnmarshalJSON c { Struct := c.zero, Valid := false } bytes = (StructFrom v, none) := by
  refine ⟨henc, ?_, ?_⟩ <;> simp [UnmarshalJSON, hshape, hdec, StructFrom, NewStruct]

/-- The round trip at `Dummy{Value: 10}`, whose encoding is the object
`{"value":10}`. -/
theorem roundtrip_valid_object_witness :
    MarshalJSON dummyCodec (StructFrom ⟨10⟩) = .ok "\x7b\"value\":10\x7d"
    ∧ dummyCodec.UnmarshalAny "\x7b\"value\":10\x7d" = .ok (.map [("value", .float64 "10")])
    ∧ dummyCodec.Unmarshal "\x7b\"value\":10\x7d" dummyCodec.zero = (⟨10⟩, none)
    ∧ UnmarshalJSON dummyCodec { Struct := dummyCodec.zero, Valid := false } "\x7b\"value\":10\x7d"
        = (StructFrom ⟨10⟩, none) :=
  ⟨by decide, rfl, by decide,
    (roundtrip_valid_object dummyCodec ⟨10⟩ "\x7b\"value\":10\x7d" [("value", .float64 "10")]
      (by decide) rfl (by decide)).2.2⟩

/-! ## Decoding -/

/-- C3: whatever the container held before, `UnmarshalJSON` on a fragment that
reads as the null literal returns no error and leaves `Valid = false`, and
`Scan(nil)` returns no error and leaves `Valid = false`. -/
theorem decode_absent_succeeds (c : Codec T) (s : Struct T) (data : Bytes)
    (h : c.UnmarshalAny data = .ok .nil) :
    (UnmarshalJSON c s data).2 = none
    ∧ (UnmarshalJSON c s data).1.Valid = false
    ∧ (Scan c s .null).2 = none
    ∧ (Scan c s .null).1.Valid = false := by
  simp [UnmarshalJSON, h, Scan]

/-- C3 on a valid container holding `Dummy{Value: 10}`, with the bytes
`null`. -/
theorem decode_absent_succeeds_witness :
    dummyCodec.UnmarshalAny "null" = .ok .nil
    ∧ (UnmarshalJSON dummyCodec { Struct := ⟨10⟩, Valid := true } "null").2 = none
    ∧ (UnmarshalJSON dummyCodec { Struct := ⟨10⟩, Valid := true } "null").1.Valid = false
    ∧ (Scan dummyCodec { Struct := ⟨10⟩, Valid := true } .null).2 = none
    ∧ (Scan dummyCodec { Struct := ⟨10⟩, Valid := true } .null).1.Valid = false :=
  ⟨rfl, decode_absent_succeeds dummyCodec { Struct := ⟨10⟩, Valid := true } "null" rfl⟩

/-- C4, as stated, fails on a valid container holding `Dummy{Value: 10}`: after
`UnmarshalJSON` on `null`, and after `Scan(nil)`, the inner value is still
`Dummy{Value: 10}`, which is not the zero value of `Dummy`. -/
theorem decode_absent_counterexample :
    (UnmarshalJSON dummyCodec { Struct := ⟨10⟩, Valid := true } "null").1.Struct = ⟨10⟩
    ∧ (UnmarshalJSON dummyCodec { Struct := ⟨10⟩, Valid := true } "null").1.Struct
        ≠ dummyCodec.zero
    ∧ (Scan dummyCodec { Struct := ⟨10⟩, Valid := true } .null).1.Struct = ⟨10⟩
    ∧ (Scan dummyCodec { Struct := ⟨10⟩, Valid := true } .null).1.Struct ≠ dummyCodec.zero := by
  decide

/-- C4 (amended): decoding the absent input (`UnmarshalJSON` on a fragment
that reads as the null literal, or `Scan(nil)`) resets the flag only and
leaves the inner value exactly as it was before the call; so the inner value
is the zero value of `T` afterwards when it was the zero value before, as in a
fresh container. -/
theorem decode_absent_keeps_inner (c : Codec T) (s : Struct T) (data : Bytes)
    (h : c.UnmarshalAny data = .ok .nil) :
    (UnmarshalJSON c s data).1 = { Struct := s.Struct, Valid := false }
    ∧ (Scan c s .null).1 = { Struct := s.Struct, Valid := false }
    ∧ (∀ b : Bool, (UnmarshalJSON c { Struct := c.zero, Valid := b } data).1.Struct = c.zero)
    ∧ (∀ b : Bool, (Scan c { Struct := c.zero, Valid := b } .null).1.Struct = c.zero) := by
  simp [UnmarshalJSON, h, Scan]

/-- C4 (amended) on a valid container holding `Dummy{Value: 10}`, with the
bytes `null`. -/
theorem decode_absent_keeps_inner_witness :
    dummyCodec.UnmarshalAny "null" = .ok .nil
    ∧ (UnmarshalJSON dummyCodec { Struct := ⟨10⟩, Valid := true } "null").1
        = { Struct := ⟨10⟩, Valid := false }
    ∧ (Scan dummyCodec { Struct := ⟨10⟩, Valid := true } .null).1
        = { Struct := ⟨10⟩, Valid := false } :=
  ⟨rfl,
    (decode_absent_keeps_inner dummyCodec { Struct := ⟨10⟩, Valid := true } "null" rfl).1,
    (decode_absent_keeps_inner dummyCodec { Struct := ⟨10⟩, Valid := true } "null" rfl).2.1⟩

/-- The object branch: when `json.Unmarshal` of the fragment into an empty
interface succeeds and stores a map, whatever the container held before,
`UnmarshalJSON` hands the same bytes to `json.Unmarshal` with the inner value as
target: it returns exactly the error `json.Unmarshal` returns, the inner value
afterwards is the target `json.Unmarshal` leaves, and `Valid` is true
afterwards exactly when `json.Unmarshal` returned no error. -/
theorem UnmarshalJSON_object_delegates (c : Codec T) (s : Struct T) (data : Bytes)
    (kvs : List (String × Dyn)) (h : c.UnmarshalAny data = .ok (.map kvs)) :
    (UnmarshalJSON c s data).2 = (c.Unmarshal data s.Struct).2
    ∧ (UnmarshalJSON c s data).1.Struct = (c.Unmarshal data s.Struct).1
    ∧ ((UnmarshalJSON c s data).1.Valid = true ↔ (c.Unmarshal data s.Struct).2 = none)
    ∧ ((UnmarshalJSON c s data).1.Valid = false ↔ ∃ e, (UnmarshalJSON c s data).2 = some e) := by
  simp only [UnmarshalJSON, h]
  cases hd : (c.Unmarshal data s.Struct).2 <;> simp

/-- The object branch on the two object fragments of `TestUnmarshalJSON`:
`{"value": 10}` gives `Valid = true` and `Value = 10` with no error;
`{"value": "string"}` gives the type error of `json.Unmarshal` and
`Valid = false`. -/
theorem UnmarshalJSON_object_delegates_witness :
    dummyCodec.UnmarshalAny "\x7b\"value\": 10\x7d" = .ok (.map [("value", .float64 "10")])
    ∧ ((UnmarshalJSON dummyCodec { Struct := ⟨0⟩, Valid := false } "\x7b\"value\": 10\x7d").1.Valid = true
        ↔ (dummyCodec.Unmarshal "\x7b\"value\": 10\x7d" ⟨0⟩).2 = none)
    ∧ UnmarshalJSON dummyCodec { Struct := ⟨0⟩, Valid := false } "\x7b\"value\": 10\x7d"
        = ({ Struct := ⟨10⟩, Valid := true }, none)
    ∧ dummyCodec.UnmarshalAny "\x7b\"value\": \"string\"\x7d"
        = .ok (.map [("value", .string "string")])
    ∧ (UnmarshalJSON dummyCodec { Struct := ⟨0⟩, Valid := false } "\x7b\"value\": \"string\"\x7d").2
        = (dummyCodec.Unmarshal "\x7b\"value\": \"string\"\x7d" ⟨0⟩).2
    ∧ UnmarshalJSON dummyCodec { Struct := ⟨0⟩, Valid := false } "\x7b\"value\": \"string\"\x7d"
        = ({ Struct := ⟨0⟩, Valid := false }, some (.unmarshalTypeError "string" "int64")) :=
  ⟨rfl,
    (UnmarshalJSON_object_delegates dummyCodec { Struct := ⟨0⟩, Valid := false }
      "\x7b\"value\": 10\x7d" [("value", .float64 "10")] rfl).2.2.1,
    by decide, rfl,
    (UnmarshalJSON_object_delegates dummyCodec { Struct := ⟨0⟩, Valid := false }
      "\x7b\"value\": \"string\"\x7d" [("value", .string "string")] rfl).1,
    by decide⟩

/-- The default branch: when `json.Unmarshal` of the fragment into an empty
interface succeeds and stores neither nil nor a map, whatever the container
held before, `UnmarshalJSON` returns an error,
leaves `Valid = false` and leaves the inner value as it was; `json.Unmarshal`
into the inner value is not called, so the outcome is the same whatever that
function would do. -/
theorem UnmarshalJSON_other_shape_rejected (c : Codec T) (s : Struct T) (data : Bytes)
    (v : Dyn) (h : c.UnmarshalAny data = .ok v) (hs : v.shape = .other) :
    UnmarshalJSON c s data
        = ({ Struct := s.Struct, Valid := false }, some (unmarshalErrorf v.typeName c.typeName))
    ∧ (UnmarshalJSON c s data).2.isSome = true
    ∧ (UnmarshalJSON c s data).1.Valid = false
    ∧ (UnmarshalJSON c s data).1.Struct = s.Struct
    ∧ ∀ u : Bytes → T → T × Option Error,
        UnmarshalJSON { c with Unmarshal := u } s data = UnmarshalJSON c s data := by
  cases v <;> simp [Dyn.shape] at hs <;> simp [UnmarshalJSON, h]

/-- The default branch on a valid container holding `Dummy{Value: 10}`, with
the number `10`, the string `"not an object"`, the boolean `true` and the array
`[1]`. -/
theorem UnmarshalJSON_other_shape_rejected_witness :
    dummyCodec.UnmarshalAny "10" = .ok (.float64 "10")
    ∧ (Dyn.float64 "10").shape = .other
    ∧ UnmarshalJSON dummyCodec { Struct := ⟨10⟩, Valid := true } "10"
        = ({ Struct := ⟨10⟩, Valid := false },
           some (unmarshalErrorf (Dyn.float64 "10").typeName dummyCodec.typeName))
    ∧ (UnmarshalJSON dummyCodec { Struct := ⟨10⟩, Valid := true } "\"not an object\"").1
        = { Struct := ⟨10⟩, Valid := false }
    ∧ (UnmarshalJSON dummyCodec { Struct := ⟨10⟩, Valid := true } "true").1
        = { Struct := ⟨10⟩, Valid := false }
    ∧ (UnmarshalJSON dummyCodec { Struct := ⟨10⟩, Valid := true } "[1]").1
        = { Struct := ⟨10⟩, Valid := false } :=
  ⟨rfl, rfl,
    (UnmarshalJSON_other_shape_rejected dummyCodec { Struct := ⟨10⟩, Valid := true } "10"
      (.float64 "10") rfl rfl).1,
    congrArg Prod.fst (UnmarshalJSON_other_shape_rejected dummyCodec
      { Struct := ⟨10⟩, Valid := true } "\"not an object\"" (.string "not an object") rfl rfl).1,
    congrArg Prod.fst (UnmarshalJSON_other_shape_rejected dummyCodec
      { Struct := ⟨10⟩, Valid := true } "true" (.bool true) rfl rfl).1,
    congrArg Prod.fst (UnmarshalJSON_other_shape_rejected dummyCodec
      { Struct := ⟨10⟩, Valid := true } "[1]" (.slice [.float64 "1"]) rfl rfl).1⟩

/-- C5: the code on well-formed object fragments that hold the number `1e999`,
which is out of the range of `float64`, for `T = Dummy`.  On `{"value": 1e999}`
with a valid container holding `Dummy{Value: 10}`, `json.Unmarshal` into the
inner value fails, and `UnmarshalJSON` returns through its early return: the
error is that of the decode into the empty interface and `Valid` stays true,
where `Scan` on the same bytes returns the error of the decode into the inner
value and sets `Valid = false`.  On `{"other": 1e999}`, `json.Unmarshal` into
the inner value succeeds, and `UnmarshalJSON` returns an error all the same. -/
theorem UnmarshalJSON_object_early_return :
    (parse "\x7b\"value\": 1e999\x7d").map Dyn.shape = some .object
    ∧ dummyCodec.Unmarshal "\x7b\"value\": 1e999\x7d" ⟨10⟩
        = (⟨10⟩, some (.unmarshalTypeError "number 1e999" "int64"))
    ∧ UnmarshalJSON dummyCodec { Struct := ⟨10⟩, Valid := true } "\x7b\"value\": 1e999\x7d"
        = ({ Struct := ⟨10⟩, Valid := true },
           some (.unmarshalTypeError "number 1e999" "float64"))
    ∧ (UnmarshalJSON dummyCodec { Struct := ⟨10⟩, Valid := true }
        "\x7b\"value\": 1e999\x7d").1.Valid = true
    ∧ Scan dummyCodec { Struct := ⟨10⟩, Valid := true } (.bytes "\x7b\"value\": 1e999\x7d")
        = ({ Struct := ⟨10⟩, Valid := false },
           some (.unmarshalTypeError "number 1e999" "int64"))
    ∧ (parse "\x7b\"other\": 1e999\x7d").map Dyn.shape = some .object
    ∧ dummyCodec.Unmarshal "\x7b\"other\": 1e999\x7d" ⟨10⟩ = (⟨10⟩, none)
    ∧ UnmarshalJSON dummyCodec { Struct := ⟨10⟩, Valid := true } "\x7b\"other\": 1e999\x7d"
        = ({ Struct := ⟨10⟩, Valid := true },
           some (.unmarshalTypeError "number 1e999" "float64")) := by
  decide

/-- C6: the code on well-formed fragments that are neither null nor an object
and hold the number `1e999`, which is out of the range of `float64`.  On
`1e999` and on `[1e999]`, with a valid container holding `Dummy{Value: 10}`,
`UnmarshalJSON` returns an error through its early return and leaves the
container as it was: the inner value is untouched, and `Valid` stays true. -/
theorem UnmarshalJSON_other_early_return :
    (parse "1e999").map Dyn.shape = some .other
    ∧ UnmarshalJSON dummyCodec { Struct := ⟨10⟩, Valid := true } "1e999"
        = ({ Struct := ⟨10⟩, Valid := true },
           some (.unmarshalTypeError "number 1e999" "float64"))
    ∧ (UnmarshalJSON dummyCodec { Struct := ⟨10⟩, Valid := true } "1e999").1.Valid = true
    ∧ (parse "[1e999]").map Dyn.shape = some .other
    ∧ UnmarshalJSON dummyCodec { Struct := ⟨10⟩, Valid := true } "[1e999]"
        = ({ Struct := ⟨10⟩, Valid := true },
           some (.unmarshalTypeError "number 1e999" "float64"))
    ∧ (UnmarshalJSON dummyCodec { Struct := ⟨10⟩, Valid := true } "[1e999]").1.Valid = true := by
  decide

/-- C7: the code at the input of `TestUnmarshalJSON` for `customString`.
`json.Unmarshal` of `"hello"` into a `customString` gives `hello` with no error,
but `UnmarshalJSON` on a fresh `Struct[customString]` takes the default branch
of its type switch: it returns an error and leaves the inner value empty and
`Valid = false`. -/
theorem UnmarshalJSON_customString_hello :
    customStringCodec.Unmarshal "\"hello\"" "" = ("hello", none)
    ∧ UnmarshalJSON customStringCodec { Struct := customStringCodec.zero, Valid := false }
        "\"hello\""
        = ({ Struct := "", Valid := false },
           some (.errorf "json: cannot unmarshal string into Go value of type string"))
    ∧ (UnmarshalJSON customStringCodec { Struct := customStringCodec.zero, Valid := false }
        "\"hello\"").1.Struct ≠ "hello" := by
  decide

/-- C8: the code on input that is not well-formed.  `UnmarshalJSON` on the
bytes `invalid`, called on a valid container holding `Dummy{Value: 10}`,
returns the syntax error and leaves the container as it was, `Valid = true`
included; `Scan` on the same bytes returns the error and sets
`Valid = false`. -/
theorem UnmarshalJSON_malformed_keeps_valid :
    UnmarshalJSON dummyCodec { Struct := ⟨10⟩, Valid := true } "invalid"
        = ({ Struct := ⟨10⟩, Valid := true }, some .syntaxError)
    ∧ (UnmarshalJSON dummyCodec { Struct := ⟨10⟩, Valid := true } "invalid").1.Valid = true
    ∧ Scan dummyCodec { Struct := ⟨10⟩, Valid := true } (.bytes "invalid")
        = ({ Struct := ⟨10⟩, Valid := false }, some .syntaxError) := by
  decide

/-- On every path but the early return of `UnmarshalJSON`, an error comes with
`Valid = false`: `Scan` always, and `UnmarshalJSON` whenever the first
`json.Unmarshal`, the one into the empty interface, succeeds. -/
theorem error_forces_invalid (c : Codec T) (s : Struct T) :
    (∀ value e, (Scan c s value).2 = some e → (Scan c s value).1.Valid = false)
    ∧ (∀ data v e, c.UnmarshalAny data = .ok v → (UnmarshalJSON c s data).2 = some e →
        (UnmarshalJSON c s data).1.Valid = false)
    ∧ (∀ data e, c.UnmarshalAny data = .error e → UnmarshalJSON c s data = (s, some e)) := by
  refine ⟨?_, ?_, ?_⟩
  · intro value e
    cases value <;> simp [Scan]
    intro h
    simp [h]
  · intro data v e hv
    cases v <;> simp [UnmarshalJSON, hv]
    intro h
    simp [h]
  · intro data e he
    simp [UnmarshalJSON, he]

/-- C9: for every inner value `x`, `MarshalJSON` of `NewStruct(x, false)`
returns the bytes `null` with no error, and `UnmarshalJSON` of these bytes into
any container returns no error and leaves `Valid = false`.  The hypothesis is
what `json.Unmarshal` does with `null` on an empty interface: it stores
`nil`. -/
theorem roundtrip_absent (c : Codec T) (x : T) (s : Struct T)
    (hnull : c.UnmarshalAny "null" = .ok .nil) :
    ∃ bytes, MarshalJSON c (NewStruct x false) = .ok bytes
      ∧ (UnmarshalJSON c s bytes).2 = none
      ∧ (UnmarshalJSON c s bytes).1.Valid = false := by
  refine ⟨"null", rfl, ?_, ?_⟩ <;> simp [UnmarshalJSON, hnull]

/-- C9 at `NewStruct(Dummy{Value: 10}, false)`, decoded into a valid container
holding `Dummy{Value: 7}`. -/
theorem roundtrip_absent_witness :
    dummyCodec.UnmarshalAny "null" = .ok .nil
    ∧ ∃ bytes, MarshalJSON dummyCodec (NewStruct ⟨10⟩ false) = .ok bytes
      ∧ (UnmarshalJSON dummyCodec { Struct := ⟨7⟩, Valid := true } bytes).2 = none
      ∧ (UnmarshalJSON dummyCodec { Struct := ⟨7⟩, Valid := true } bytes).1.Valid = false :=
  ⟨rfl, roundtrip_absent dummyCodec ⟨10⟩ { Struct := ⟨7⟩, Valid := true } rfl⟩

/-! ## Storage value -/

/-- C10: for every `T`, `Value` on a container that is not valid returns the
driver's nil with no error, and on a valid container returns the bytes of
`json.Marshal` on the inner value as the driver value; it fails exactly when
`json.Marshal` fails, with the same error.  `Dummy{Value: 10}` in a valid
container gives the bytes `{"value":10}` (`TestStructValue`). -/
theorem Value_null_or_encoding (c : Codec T) (x : T) :
    Value c { Struct := x, Valid := false } = .ok .null
    ∧ (∀ b, Value c { Struct := x, Valid := true } = .ok (.bytes b) ↔ c.Marshal x = .ok b)
    ∧ (∀ e, Value c { Struct := x, Valid := true } = .error e ↔ c.Marshal x = .error e)
    ∧ Value c { Struct := x, Valid := true } ≠ .ok .null
    ∧ Value dummyCodec (NewStruct ⟨0⟩ false) = .ok .null
    ∧ Value dummyCodec (SetValid (NewStruct ⟨0⟩ false) ⟨10⟩) = .ok (.bytes "\x7b\"value\":10\x7d") := by
  refine ⟨rfl, ?_, ?_, ?_, by decide, by decide⟩
  · intro b
    cases hm : c.Marshal x <;> simp [Value, hm, Except.map]
  · intro e
    cases hm : c.Marshal x <;> simp [Value, hm, Except.map]
  · cases hm : c.Marshal x <;> simp [Value, hm, Except.map]

/-! ## Scanning -/

/-- C11: for every `T`, every prior state and every byte payload `b`,
`Scan(b)` hands `b` to `json.Unmarshal` with the inner value as target: it
returns exactly the error `json.Unmarshal` returns, the inner value afterwards
is the target `json.Unmarshal` leaves, and `Valid` is true afterwards exactly
when `json.Unmarshal` returned no error.  Scanning `{"value": 10}` into an
empty container gives `Valid = true` and `Value = 10` (`TestStructScan`). -/
theorem Scan_bytes_delegates (c : Codec T) (s : Struct T) (b : Bytes) :
    (Scan c s (.bytes b)).2 = (c.Unmarshal b s.Struct).2
    ∧ (Scan c s (.bytes b)).1.Struct = (c.Unmarshal b s.Struct).1
    ∧ ((Scan c s (.bytes b)).1.Valid = true ↔ (c.Unmarshal b s.Struct).2 = none)
    ∧ ((Scan c s (.bytes b)).1.Valid = false ↔ ∃ e, (Scan c s (.bytes b)).2 = some e)
    ∧ Scan dummyCodec (zeroStruct dummyCodec) (.bytes "\x7b\"value\": 10\x7d")
        = ({ Struct := ⟨10⟩, Valid := true }, none) := by
  refine ⟨rfl, rfl, ?_, ?_, by decide⟩ <;>
    cases hd : (c.Unmarshal b s.Struct).2 <;> simp [Scan, hd]

/-- C12: for every `T`, every prior state and every scanned value that is
neither nil nor a byte slice, `Scan` returns an error whose message carries the
`%T` rendering of the value, leaves `Valid = false` and leaves the inner value
as it was. -/
theorem Scan_other_kind_rejected (c : Codec T) (s : Struct T) (value : ScanValue)
    (hnil : value ≠ .null) (hbytes : ∀ x, value ≠ .bytes x) :
    Scan c s value = ({ Struct := s.Struct, Valid := false }, some (scanErrorf value))
    ∧ scanErrorf value
        = .errorf ("null: cannot scan type " ++ value.fmtT ++ " into null.Struct: " ++ value.fmtV)
    ∧ (Scan c s value).2.isSome = true
    ∧ (Scan c s value).1.Valid = false
    ∧ (Scan c s value).1.Struct = s.Struct := by
  cases value <;> simp [Scan, scanErrorf] at *

/-- C12 on a valid container holding `Dummy{Value: 10}`, with an integer, a
float, a boolean and a text value. -/
theorem Scan_other_kind_rejected_witness :
    ScanValue.int64 5 ≠ .null
    ∧ (∀ x, ScanValue.int64 5 ≠ .bytes x)
    ∧ Scan dummyCodec { Struct := ⟨10⟩, Valid := true } (.int64 5)
        = ({ Struct := ⟨10⟩, Valid := false },
           some (.errorf "null: cannot scan type int64 into null.Struct: 5"))
    ∧ Scan dummyCodec { Struct := ⟨10⟩, Valid := true } (.float64 "1.5")
        = ({ Struct := ⟨10⟩, Valid := false },
           some (.errorf "null: cannot scan type float64 into null.Struct: 1.5"))
    ∧ Scan dummyCodec { Struct := ⟨10⟩, Valid := true } (.bool true)
        = ({ Struct := ⟨10⟩, Valid := false },
           some (.errorf "null: cannot scan type bool into null.Struct: true"))
    ∧ Scan dummyCodec { Struct := ⟨10⟩, Valid := true } (.string "text")
        = ({ Struct := ⟨10⟩, Valid := false },
           some (.errorf "null: cannot scan type string into null.Struct: text")) :=
  ⟨by decide, by intro x; exact ScanValue.noConfusion,
    (Scan_other_kind_rejected dummyCodec { Struct := ⟨10⟩, Valid := true } (.int64 5)
      (by decide) (by intro x; exact ScanValue.noConfusion)).1,
    (Scan_other_kind_rejected dummyCodec { Struct := ⟨10⟩, Valid := true } (.float64 "1.5")
      (by decide) (by intro x; exact ScanValue.noConfusion)).1,
    (Scan_other_kind_rejected dummyCodec { Struct := ⟨10⟩, Valid := true } (.bool true)
      (by decide) (by intro x; exact ScanValue.noConfusion)).1,
    (Scan_other_kind_rejected dummyCodec { Struct := ⟨10⟩, Valid := true } (.string "text")
      (by decide) (by intro x; exact ScanValue.noConfusion)).1⟩

/-! ## Construction and accessors -/

/-- C13: for every `T`, value `v` and flag `b`, `NewStruct(v, b).ValueOrZero()`
is `v` when `b` is true and the zero value of `T` when `b` is false; so
`StructFrom(v).ValueOrZero()` is `v` and `NewStruct(v, false).ValueOrZero()` is
the zero value.  `ValueOrZero` is a total function and returns no error.  The
two cases of `TestValueOrZero` are included. -/
theorem ValueOrZero_inner_or_zero (c : Codec T) (v : T) (b : Bool) :
    ValueOrZero c (NewStruct v b) = (if b = true then v else c.zero)
    ∧ ValueOrZero c (NewStruct v true) = v
    ∧ ValueOrZero c (StructFrom v) = v
    ∧ ValueOrZero c (NewStruct v false) = c.zero
    ∧ ValueOrZero dummyCodec (StructFrom ⟨10⟩) = ⟨10⟩
    ∧ ValueOrZero dummyCodec (NewStruct ⟨10⟩ false) = ⟨0⟩ := by
  refine ⟨?_, rfl, rfl, rfl, by decide, by decide⟩
  cases b <;> rfl

/-- C14: for every `T`, `StructFromPtr(nil)` is `NewStruct(zero, false)`, which
is also the zero value `Struct[T]{}` of the container; `StructFromPtr(&v)` is
`NewStruct(v, true)`, holding the value pointed to, and its `ValueOrZero()` is
`v`.  The two cases of `TestStructFromPtr` are included. -/
theorem StructFromPtr_nil_or_copy (c : Codec T) (v : T) :
    StructFromPtr c none = NewStruct c.zero false
    ∧ NewStruct c.zero false = zeroStruct c
    ∧ (StructFromPtr c none).Valid = false
    ∧ StructFromPtr c (some v) = NewStruct v true
    ∧ ValueOrZero c (StructFromPtr c (some v)) = v
    ∧ StructFromPtr dummyCodec (some ⟨10⟩) = { Struct := ⟨10⟩, Valid := true }
    ∧ StructFromPtr dummyCodec none = { Struct := ⟨0⟩, Valid := false } := by
  refine ⟨rfl, rfl, rfl, rfl, rfl, by decide, by decide⟩

/-- C15: for every `T` and every container `s`, `s.Ptr()` is nil exactly when
`s.Valid` is false; when `s.Valid` is true the pointer is the address of the
inner field of `s` itself: reading through it gives `s.Struct`, and writing
through it changes `s.Struct` and nothing else.  The two cases of
`TestStructPtr` are included. -/
theorem Ptr_nil_iff_invalid (s : Struct T) (x y : T) :
    (Ptr s = none ↔ s.Valid = false)
    ∧ Ptr ({ Struct := x, Valid := false } : Struct T) = none
    ∧ Ptr ({ Struct := x, Valid := true } : Struct T) = some .innerField
    ∧ Ref.innerField.load ({ Struct := x, Valid := true } : Struct T) = x
    ∧ Ref.innerField.store ({ Struct := x, Valid := true } : Struct T) y
        = { Struct := y, Valid := true }
    ∧ (Ptr (StructFrom (⟨10⟩ : Dummy))).map (fun p => (p.load (StructFrom (⟨10⟩ : Dummy))).Value)
        = some 10
    ∧ Ptr (NewStruct (⟨10⟩ : Dummy) false) = none := by
  refine ⟨?_, rfl, rfl, rfl, rfl, by decide, by decide⟩
  cases hv : s.Valid <;> simp [Ptr, hv]

/-- C16: for every `T`, every prior state of the container and every value
`v`, the container after `SetValid(v)` is exactly `{Struct: v, Valid: true}`,
that is, `NewStruct(v, true)`; `SetValid` is a total function and returns no
error.  The case of `TestStructSetValid` is included. -/
theorem SetValid_result (s : Struct T) (v : T) :
    SetValid s v = { Struct := v, Valid := true }
    ∧ SetValid s v = NewStruct v true
    ∧ SetValid (NewStruct (⟨0⟩ : Dummy) false) ⟨10⟩ = NewStruct ⟨10⟩ true := by
  refine ⟨rfl, rfl, by decide⟩

/-- C17: for every `T` and every container `s`, `s.IsZero()` is the negation
of `s.Valid`, whatever the inner value: a valid container holding the zero
value of `T` is not zero, a container that is not valid is zero even around a
non-zero value, and `IsZero()` is false after `SetValid`.  The two cases of
`TestStructIsZero` are included. -/
theorem IsZero_eq_not_valid (c : Codec T) (s : Struct T) (x y : T) :
    IsZero s = !s.Valid
    ∧ IsZero ({ Struct := x, Valid := s.Valid } : Struct T) = IsZero s
    ∧ IsZero (NewStruct c.zero true) = false
    ∧ IsZero (NewStruct x false) = true
    ∧ IsZero (SetValid s y) = false
    ∧ IsZero (NewStruct (⟨10⟩ : Dummy) false) = true
    ∧ IsZero (NewStruct (⟨0⟩ : Dummy) false) = true
    ∧ IsZero (SetValid (NewStruct (⟨0⟩ : Dummy) false) ⟨10⟩) = false := by
  refine ⟨rfl, rfl, rfl, rfl, rfl, by decide, by decide, by decide⟩

/-! ## The error message of `UnmarshalJSON`, and `Scan` against `UnmarshalJSON` -/

/-- C18: the code on fragments that are neither null nor an object, for
`T = Dummy`.  The message of the returned error ends in `string` whatever `T`
is: the name of `T` (`Dummy`) is computed and handed to the verb `%T`, which
prints the type of its argument, a string.  For an array the name of the
shape is empty, since `Name()` of the unnamed type `[]interface{}` is the
empty string. -/
theorem UnmarshalJSON_error_message :
    UnmarshalJSON dummyCodec (zeroStruct dummyCodec) "10"
        = ({ Struct := ⟨0⟩, Valid := false },
           some (.errorf "json: cannot unmarshal float64 into Go value of type string"))
    ∧ UnmarshalJSON dummyCodec (zeroStruct dummyCodec) "[1]"
        = ({ Struct := ⟨0⟩, Valid := false },
           some (.errorf "json: cannot unmarshal  into Go value of type string"))
    ∧ dummyCodec.typeName = "Dummy"
    ∧ ¬ ("Dummy".toList <:+: "json: cannot unmarshal float64 into Go value of type string".toList)
    ∧ (Dyn.slice [.float64 "1"]).typeName = ""
    ∧ (∀ xs : List Dyn, (Dyn.slice xs).typeName = "")
    ∧ (∀ vName t1 t2 : String, unmarshalErrorf vName t1 = unmarshalErrorf vName t2) := by
  refine ⟨by decide, by decide, rfl, by decide, rfl, fun _ => rfl, fun _ _ _ => rfl⟩

/-- C19: `Scan` looks at no shape.  For every `T`, every prior state and every
byte payload on which `json.Unmarshal` into the inner value returns no error,
`Scan` returns no error and leaves `Valid = true` with the decoded inner value.
On the payload `null`, which `json.Unmarshal` accepts and which leaves a
`Dummy` untouched, `Scan` leaves `Valid = true` and the inner value as it was,
where `UnmarshalJSON` leaves `Valid = false`; on the payload `10` for
`T = int64`, `Scan` succeeds where `UnmarshalJSON` returns an error. -/
theorem Scan_no_shape_check (c : Codec T) (s : Struct T) (b : Bytes)
    (h : (c.Unmarshal b s.Struct).2 = none) :
    Scan c s (.bytes b) = ({ Struct := (c.Unmarshal b s.Struct).1, Valid := true }, none)
    ∧ dummyCodec.Unmarshal "null" ⟨10⟩ = (⟨10⟩, none)
    ∧ Scan dummyCodec { Struct := ⟨10⟩, Valid := false } (.bytes "null")
        = ({ Struct := ⟨10⟩, Valid := true }, none)
    ∧ UnmarshalJSON dummyCodec { Struct := ⟨10⟩, Valid := false } "null"
        = ({ Struct := ⟨10⟩, Valid := false }, none)
    ∧ Scan int64Codec { Struct := 0, Valid := false } (.bytes "10")
        = ({ Struct := 10, Valid := true }, none)
    ∧ UnmarshalJSON int64Codec { Struct := 0, Valid := false } "10"
        = ({ Struct := 0, Valid := false },
           some (.errorf "json: cannot unmarshal float64 into Go value of type string")) := by
  refine ⟨?_, by decide, by decide, by decide, by decide, by decide⟩
  simp [Scan, h]

/-- C19 on a container holding `Dummy{Value: 10}`, with the payload `null`. -/
theorem Scan_no_shape_check_witness :
    (dummyCodec.Unmarshal "null" ⟨10⟩).2 = none
    ∧ Scan dummyCodec { Struct := ⟨10⟩, Valid := false } (.bytes "null")
        = ({ Struct := (dummyCodec.Unmarshal "null" ⟨10⟩).1, Valid := true }, none) :=
  ⟨by decide,
    (Scan_no_shape_check dummyCodec { Struct := ⟨10⟩, Valid := false } "null" (by decide)).1⟩

/-! ## What a container that is not valid shows -/

/-- C20: for every `T` and any two containers with `Valid = false`, whatever
their inner values, `ValueOrZero`, `MarshalJSON`, `Value`, `Ptr` and `IsZero`
return equal results on the two. -/
theorem invalid_inner_unobservable (c : Codec T) (s1 s2 : Struct T)
    (h1 : s1.Valid = false) (h2 : s2.Valid = false) :
    ValueOrZero c s1 = ValueOrZero c s2
    ∧ MarshalJSON c s1 = MarshalJSON c s2
    ∧ Value c s1 = Value c s2
    ∧ Ptr s1 = Ptr s2
    ∧ IsZero s1 = IsZero s2 := by
  simp [ValueOrZero, MarshalJSON, Value, Ptr, IsZero, h1, h2]

/-- C20 on two containers that are not valid, holding `Dummy{Value: 10}` and
`Dummy{Value: 7}`. -/
theorem invalid_inner_unobservable_witness :
    ({ Struct := ⟨10⟩, Valid := false } : Struct Dummy).Valid = false
    ∧ ({ Struct := ⟨7⟩, Valid := false } : Struct Dummy).Valid = false
    ∧ ValueOrZero dummyCodec { Struct := ⟨10⟩, Valid := false }
        = ValueOrZero dummyCodec { Struct := ⟨7⟩, Valid := false }
    ∧ MarshalJSON dummyCodec { Struct := ⟨10⟩, Valid := false }
        = MarshalJSON dummyCodec { Struct := ⟨7⟩, Valid := false }
    ∧ Value dummyCodec { Struct := ⟨10⟩, Valid := false }
        = Value dummyCodec { Struct := ⟨7⟩, Valid := false }
    ∧ Ptr ({ Struct := ⟨10⟩, Valid := false } : Struct Dummy)
        = Ptr ({ Struct := ⟨7⟩, Valid := false } : Struct Dummy)
    ∧ IsZero ({ Struct := ⟨10⟩, Valid := false } : Struct Dummy)
        = IsZero ({ Struct := ⟨7⟩, Valid := false } : Struct Dummy) :=
  ⟨rfl, rfl,
    invalid_inner_unobservable dummyCodec { Struct := ⟨10⟩, Valid := false }
      { Struct := ⟨7⟩, Valid := false } rfl rfl⟩

end Theorems
end Null
